import Mathlib

/-!
Verification development for the wake-word listener in `src/main.py`
(`village-elder-v1`).  The program's session state machine is shallowly
embedded: timestamps and wake scores (Python floats) are modelled as
rationals, 16-bit audio samples as integers, the audio buffer (a `deque`)
as a list, and the external capabilities (wake scorer, Whisper transcriber,
LLM post-processor) as oracle parameters.  Each definition mirrors one
function of the source and is annotated with the lines it embeds.
-/

namespace VillageElder

/-- `CHUNK_SIZE = 1280` (main.py line 34): samples per callback block. -/
def CHUNK_SIZE : ℕ := 1280

/-- `WAKE_SCORE_THRESHOLD = 0.50` (line 36). -/
def WAKE_SCORE_THRESHOLD : ℚ := 1/2

/-- `WAKE_HYSTERESIS_FRAMES = 3` (line 37). -/
def WAKE_HYSTERESIS_FRAMES : ℕ := 3

/-- `RETRIGGER_GAP_SEC = 1.5` (line 38). -/
def RETRIGGER_GAP_SEC : ℚ := 3/2

/-- `POST_SESSION_COOLDOWN_SEC = 1.5` (line 39). -/
def POST_SESSION_COOLDOWN_SEC : ℚ := 3/2

/-- `SESSION_MAX_SEC = 40.0` (line 41). -/
def SESSION_MAX_SEC : ℚ := 40

/-- `SILENCE_TIMEOUT_SEC = 5.0` (line 42). -/
def SILENCE_TIMEOUT_SEC : ℚ := 5

/-- `RMS_SILENCE_THRESHOLD = 500` (line 43). -/
def RMS_SILENCE_THRESHOLD : ℤ := 500

/-- `is_silence` (lines 76-82): RMS-based silence detector.  The source
computes `sqrt(mean(x^2)) < 500` over float32; since both sides are
nonnegative this is equivalent to `sum(x^2) < 500^2 * n` for a block of
`n > 0` samples, which is the exact integer comparison embedded here.
An empty block is silent (line 78-79). -/
def is_silence (audio : List ℤ) : Bool :=
  if audio.length = 0 then true
  else decide ((audio.map (fun x => x * x)).sum <
    RMS_SILENCE_THRESHOLD * RMS_SILENCE_THRESHOLD * (audio.length : ℤ))

/-- The shared mutable state of `main` (lines 124-137): the fields closed
over by `on_audio`, `transcription_worker` and
`end_session_and_postprocess`, guarded by `state_lock`.
`silence_start_ts = 0` is the source's sentinel for "no silence run". -/
structure State where
  last_trigger_ts : ℚ
  transcribing : Bool
  wake_cooldown_until : ℚ
  consecutive_wake_hits : ℕ
  transcription_buffer : List ℤ
  transcription_start_ts : ℚ
  silence_start_ts : ℚ
deriving Repr, DecidableEq

/-- Initial state (lines 125-135): all zeros / false / empty. -/
def initState : State :=
  { last_trigger_ts := 0
    transcribing := false
    wake_cooldown_until := 0
    consecutive_wake_hits := 0
    transcription_buffer := []
    transcription_start_ts := 0
    silence_start_ts := 0 }

/-- The state written when a trigger fires (lines 300-310): record the
trigger time, clear hysteresis, enter transcription with a fresh buffer,
stamp the session start, clear the silence run, and set the 0.5 s
transitional guard cooldown. -/
def triggeredState (s : State) (now : ℚ) : State :=
  { s with
      last_trigger_ts := now
      consecutive_wake_hits := 0
      transcribing := true
      transcription_buffer := []
      transcription_start_ts := now
      silence_start_ts := 0
      wake_cooldown_until := now + 1/2 }

/-- `on_audio` (lines 249-314), the sounddevice callback.  `audio` is the
block after channel extraction, `score` the wake score the external
scorer returns for the target keyword (`oww.predict`, line 289-290, an
oracle here).  Returns the new state and whether a session was started
(i.e. whether the watchdog thread was spawned, lines 313-314).
Branches, in source order: undersized block dropped (264-265); while
transcribing, append the block and track silence (269-280); cooldown
gate (283-284); retrigger gate (285-286); hysteresis update (293-296)
and trigger test (298). -/
def on_audio (s : State) (now : ℚ) (audio : List ℤ) (score : ℚ) :
    State × Bool :=
  if audio.length < CHUNK_SIZE then (s, false)
  else if s.transcribing then
    ({ s with
        transcription_buffer := s.transcription_buffer ++ audio
        silence_start_ts :=
          if is_silence audio then
            (if s.silence_start_ts = 0 then now else s.silence_start_ts)
          else 0 }, false)
  else if now < s.wake_cooldown_until then (s, false)
  else if now - s.last_trigger_ts < RETRIGGER_GAP_SEC then (s, false)
  else
    let hits := if WAKE_SCORE_THRESHOLD ≤ score then
      s.consecutive_wake_hits + 1 else 0
    if WAKE_HYSTERESIS_FRAMES ≤ hits then (triggeredState s now, true)
    else ({ s with consecutive_wake_hits := hits }, false)

/-- One poll of the `transcription_worker` loop (lines 224-242): `true`
iff this iteration breaks out of the loop, in source order: the flag was
observed false (231-232), the 40 s hard cap (234-236), or a silence run
is recorded and has lasted 5 s (238-240). -/
def watchdog_break (s : State) (now : ℚ) : Bool :=
  if s.transcribing = false then true
  else if SESSION_MAX_SEC ≤ now - s.transcription_start_ts then true
  else if 0 < s.silence_start_ts ∧
    SILENCE_TIMEOUT_SEC ≤ now - s.silence_start_ts then true
  else false

/-- Result of `end_session_and_postprocess`: the state after cleanup, the
audio handed to the transcriber (`none` when the drained buffer was
empty, lines 169-174; the source scales it by 1/32768 before the call,
which permutes no samples), the transcript text, and whether a wake-model
reset (`virginize_wake_model`, line 217) was requested. -/
structure FinalizeResult where
  state : State
  transcribed : Option (List ℤ)
  transcript : String
  wakeModelReset : Bool
deriving DecidableEq

/-- `end_session_and_postprocess` (lines 156-217).  `now` is the
`time.monotonic()` read in the cleanup block (line 214).  The transcriber
and post-processor are oracles that may fail; the source wraps both calls
in `try/except` (lines 181-198, 202-208), so a failure leaves
`transcript_text` empty (hence skips the LLM step, line 201) and never
escapes.  The cleanup block (lines 211-215) and the wake-model reset
(line 217) run unconditionally. -/
def end_session_and_postprocess (s : State) (now : ℚ)
    (transcriber : List ℤ → Except String String)
    (postprocessor : String → Except String Unit) : FinalizeResult :=
  let arr : Option (List ℤ) :=
    if s.transcription_buffer.length = 0 then none
    else some s.transcription_buffer
  let transcript_text : String :=
    match arr with
    | none => ""
    | some a =>
      match transcriber a with
      | Except.ok t => t
      | Except.error _ => ""
  let _post : Option (Except String Unit) :=
    if transcript_text = "" then none
    else some (postprocessor transcript_text)
  { state :=
      { s with
          transcription_buffer := []
          transcribing := false
          wake_cooldown_until := now + POST_SESSION_COOLDOWN_SEC }
    transcribed := arr
    transcript := transcript_text
    wakeModelReset := true }

/-- The samples an `on_audio` invocation actually appends to the buffer
while a session is active: the whole block, unless the block is shorter
than `CHUNK_SIZE` and was dropped at line 264-265. -/
def ingested (block : List ℤ) : List ℤ :=
  if block.length < CHUNK_SIZE then [] else block

/-- Phase of the watchdog/finalizer thread for the current session:
`off` — no thread alive (system idle); `polling` — inside the
`transcription_worker` loop (lines 224-242); `broke` — the loop exited,
`end_session_and_postprocess` not yet at its drain block; `drained arr` —
the buffer snapshot `arr` was taken under the lock (lines 161-174) and
the slow transcription/LLM work is in progress; the cleanup block
(lines 211-215) then returns to `off`. -/
inductive WPhase where
  | off : WPhase
  | polling : WPhase
  | broke : WPhase
  | drained : List ℤ → WPhase
deriving Repr, DecidableEq

/-- Global system: the shared state, the watchdog/finalizer phase, and
ghost instrumentation — `activeCount` counts sessions started and not yet
finalized, `sessionLog` the samples appended since the session started and
before the drain, `postLog` the samples appended after the drain. -/
structure Sys where
  st : State
  phase : WPhase
  activeCount : ℕ
  sessionLog : List ℤ
  postLog : List ℤ
deriving Repr, DecidableEq

/-- Events of an interleaving of the ingest callback and the
watchdog/finalizer thread: one whole `on_audio` invocation (the ingest
thread's step; the claims quantify over interleavings at callback
granularity), one poll of the worker loop (lines 225-230), the
finalizer's lock-guarded drain block (lines 161-174), and the
finalizer's lock-guarded cleanup block (lines 211-215). -/
inductive Ev where
  | audio : ℚ → List ℤ → ℚ → Ev
  | poll : ℚ → Ev
  | drain : Ev
  | cleanup : ℚ → Ev

/-- Interleaving semantics: one event applied to the system.  `audio`
runs `on_audio` (spawning the watchdog on a trigger, line 313-314);
`poll` applies `watchdog_break` when the watchdog is polling; `drain`
snapshots and empties the buffer (lines 161-174); `cleanup` performs the
unconditional reset (lines 211-215).  Events of a thread that is not at
the corresponding program point are no-ops. -/
def sysStep (sys : Sys) (e : Ev) : Sys :=
  match e with
  | Ev.audio now block score =>
      let r := on_audio sys.st now block score
      if r.2 then
        { st := r.1, phase := WPhase.polling,
          activeCount := sys.activeCount + 1,
          sessionLog := [], postLog := [] }
      else if sys.st.transcribing then
        match sys.phase with
        | WPhase.drained _ =>
            { sys with
                st := r.1
                postLog := sys.postLog ++ ingested block }
        | _ =>
            { sys with
                st := r.1
                sessionLog := sys.sessionLog ++ ingested block }
      else { sys with st := r.1 }
  | Ev.poll now =>
      match sys.phase with
      | WPhase.polling =>
          if watchdog_break sys.st now then { sys with phase := WPhase.broke }
          else sys
      | _ => sys
  | Ev.drain =>
      match sys.phase with
      | WPhase.broke =>
          { sys with
              st := { sys.st with transcription_buffer := [] }
              phase := WPhase.drained sys.st.transcription_buffer
              postLog := [] }
      | _ => sys
  | Ev.cleanup now =>
      match sys.phase with
      | WPhase.drained _ =>
          { st := { sys.st with
              transcription_buffer := []
              transcribing := false
              wake_cooldown_until := now + POST_SESSION_COOLDOWN_SEC }
            phase := WPhase.off
            activeCount := sys.activeCount - 1
            sessionLog := sys.sessionLog
            postLog := sys.postLog }
      | _ => sys

/-- Initial system: idle state, no watchdog, no session. -/
def initSys : Sys :=
  { st := initState, phase := WPhase.off, activeCount := 0,
    sessionLog := [], postLog := [] }

/-- Run an arbitrary interleaving of events from the initial system. -/
def runTrace (es : List Ev) : Sys := es.foldl sysStep initSys

/-- The inductive invariant of the session state machine: the
`transcribing` flag is exactly "a watchdog/finalizer is alive", the ghost
session count matches the flag, the live buffer equals the pre-drain
session log until the drain, the drained snapshot equals the session log
with the live buffer holding only post-drain arrivals, and the buffer is
empty while idle. -/
def SysInv (sys : Sys) : Prop :=
  (sys.st.transcribing = true ↔ sys.phase ≠ WPhase.off)
  ∧ sys.activeCount = (if sys.st.transcribing then 1 else 0)
  ∧ ((sys.phase = WPhase.polling ∨ sys.phase = WPhase.broke) →
      sys.st.transcription_buffer = sys.sessionLog)
  ∧ (∀ arr, sys.phase = WPhase.drained arr →
      arr = sys.sessionLog ∧ sys.st.transcription_buffer = sys.postLog)
  ∧ (sys.phase = WPhase.off → sys.st.transcription_buffer = [])

/-- The first time at which a frozen session with start time `S` and
silence-run start `Z` satisfies a termination condition of the worker
loop: the hard cap at `S + 40`, raced against `Z + 5` when a silence run
is recorded. -/
def firstStop (S Z : ℚ) : ℚ :=
  if 0 < Z then min (S + SESSION_MAX_SEC) (Z + SILENCE_TIMEOUT_SEC)
  else S + SESSION_MAX_SEC

/-- The shared mutable fields of `main` (lines 124-137) that the lock
discipline is about. -/
inductive Field where
  | transcribing : Field
  | transcription_buffer : Field
  | transcription_start_ts : Field
  | silence_start_ts : Field
  | wake_cooldown_until : Field
  | last_trigger_ts : Field
  | consecutive_wake_hits : Field
deriving Repr, DecidableEq

/-- Whether a field access reads or mutates. -/
inductive Mode where
  | read : Mode
  | write : Mode
deriving Repr, DecidableEq

/-- One access to a shared field, with whether the accessing statement
executes inside a `with state_lock:` block. -/
structure Access where
  field : Field
  mode : Mode
  locked : Bool
deriving Repr, DecidableEq

/-- Shared-field accesses of `on_audio`'s buffering path (lines 270-280),
in program order: the flag check (271) and the append plus silence
tracking (274-279), all inside `with state_lock:` blocks. -/
def on_audio_buffering_accesses : List Access :=
  [ { field := Field.transcribing, mode := Mode.read, locked := true },
    { field := Field.transcription_buffer, mode := Mode.write, locked := true },
    { field := Field.silence_start_ts, mode := Mode.read, locked := true },
    { field := Field.silence_start_ts, mode := Mode.write, locked := true } ]

/-- Shared-field accesses of `on_audio`'s detection/trigger path
(lines 270-310), in program order.  The flag check (271) and the trigger
block (306-310) hold the lock; the cooldown gate (283), retrigger gate
(285), hysteresis counter updates (293-301) and the trigger-timestamp
write (300) execute with no lock held. -/
def on_audio_trigger_accesses : List Access :=
  [ { field := Field.transcribing, mode := Mode.read, locked := true },
    { field := Field.wake_cooldown_until, mode := Mode.read, locked := false },
    { field := Field.last_trigger_ts, mode := Mode.read, locked := false },
    { field := Field.consecutive_wake_hits, mode := Mode.read, locked := false },
    { field := Field.consecutive_wake_hits, mode := Mode.write, locked := false },
    { field := Field.last_trigger_ts, mode := Mode.write, locked := false },
    { field := Field.consecutive_wake_hits, mode := Mode.write, locked := false },
    { field := Field.transcribing, mode := Mode.write, locked := true },
    { field := Field.transcription_buffer, mode := Mode.write, locked := true },
    { field := Field.transcription_start_ts, mode := Mode.write, locked := true },
    { field := Field.silence_start_ts, mode := Mode.write, locked := true },
    { field := Field.wake_cooldown_until, mode := Mode.write, locked := true } ]

/-- Shared-field accesses of one `transcription_worker` poll
(lines 226-229): three reads inside `with state_lock:`. -/
def transcription_worker_accesses : List Access :=
  [ { field := Field.transcribing, mode := Mode.read, locked := true },
    { field := Field.transcription_start_ts, mode := Mode.read, locked := true },
    { field := Field.silence_start_ts, mode := Mode.read, locked := true } ]

/-- Shared-field accesses of `end_session_and_postprocess`
(lines 161-214): the drain block (161-174) and the cleanup block
(211-214), both inside `with state_lock:`. -/
def end_session_accesses : List Access :=
  [ { field := Field.transcription_buffer, mode := Mode.read, locked := true },
    { field := Field.transcription_buffer, mode := Mode.write, locked := true },
    { field := Field.transcription_buffer, mode := Mode.write, locked := true },
    { field := Field.transcribing, mode := Mode.write, locked := true },
    { field := Field.wake_cooldown_until, mode := Mode.write, locked := true } ]

/-- All shared-field accesses performed by the ingest callback and the
watchdog/finalizer thread. -/
def all_shared_accesses : List Access :=
  on_audio_buffering_accesses ++ on_audio_trigger_accesses ++
    transcription_worker_accesses ++ end_session_accesses

/-- The six fields named by the lock-discipline claim. -/
def claimedSharedFields : List Field :=
  [ Field.transcribing, Field.transcription_buffer,
    Field.transcription_start_ts, Field.silence_start_ts,
    Field.wake_cooldown_until, Field.last_trigger_ts ]

/-- A full-size block of zero samples (a silent chunk). -/
def chunk0 : List ℤ := List.replicate CHUNK_SIZE 0

/-- A full-size block of amplitude-1000 samples; its RMS is 1000, above
the silence threshold of 500, so it is classified non-silent. -/
def loudChunk : List ℤ := List.replicate CHUNK_SIZE 1000

/-- A state in the middle of a session (flag set, fresh buffer). -/
def activeState : State :=
  { initState with transcribing := true }

/-- An idle state whose post-session cooldown runs until `t = 10`. -/
def cooldownState : State :=
  { initState with wake_cooldown_until := 10 }

/-- A transcriber oracle that always succeeds with an empty transcript. -/
def okTranscriber : List ℤ → Except String String :=
  fun _ => Except.ok ""

/-- A post-processor oracle that always succeeds. -/
def okPost : String → Except String Unit :=
  fun _ => Except.ok ()

/-- Feed a sequence of (arrival time, wake score) chunks, all with audio
block `b`, through consecutive `on_audio` invocations; returns the final
state and the per-chunk session-start flags. -/
def run_chunks (b : List ℤ) :
    State → List (ℚ × ℚ) → State × List Bool
  | s, [] => (s, [])
  | s, tq :: rest =>
      let r := on_audio s tq.1 b tq.2
      let rr := run_chunks b r.1 rest
      (rr.1, r.2 :: rr.2)

/-- A system whose finalizer has drained the snapshot `[7]` while the
chunk `[9]` arrived after the drain. -/
def drainedSys : Sys :=
  { st := { activeState with transcription_buffer := [9] }
    phase := WPhase.drained [7]
    activeCount := 1
    sessionLog := [7]
    postLog := [9] }

/-- An undersized block is dropped before any state is touched. -/
theorem on_audio_short (s : State) (now : ℚ) (audio : List ℤ) (score : ℚ)
    (h : audio.length < CHUNK_SIZE) :
    on_audio s now audio score = (s, false) := by
  simp [on_audio, h]

/-- While a session is active, a full-size block is appended and the
silence run tracked; no trigger fires. -/
theorem on_audio_active_full (s : State) (now : ℚ) (audio : List ℤ)
    (score : ℚ) (ht : s.transcribing = true)
    (hlen : CHUNK_SIZE ≤ audio.length) :
    on_audio s now audio score =
      ({ s with
          transcription_buffer := s.transcription_buffer ++ audio
          silence_start_ts :=
            if is_silence audio then
              (if s.silence_start_ts = 0 then now else s.silence_start_ts)
            else 0 }, false) := by
  simp [on_audio, Nat.not_lt.mpr hlen, ht]

/-- While a session is active, every `on_audio` invocation keeps the flag
set, appends exactly the ingested samples, and never starts a session. -/
theorem on_audio_active (s : State) (now : ℚ) (audio : List ℤ) (score : ℚ)
    (ht : s.transcribing = true) :
    (on_audio s now audio score).1.transcribing = true
    ∧ (on_audio s now audio score).1.transcription_buffer =
        s.transcription_buffer ++ ingested audio
    ∧ (on_audio s now audio score).2 = false := by
  by_cases hlen : audio.length < CHUNK_SIZE
  · rw [on_audio_short s now audio score hlen]
    simp [ingested, hlen, ht]
  · rw [on_audio_active_full s now audio score ht (Nat.not_lt.mp hlen)]
    simp [ingested, hlen, ht]

/-- When `on_audio` reports a session start, the pre-state was idle and
the post-state is the triggered state: flag set, fresh empty buffer. -/
theorem on_audio_start (s : State) (now : ℚ) (audio : List ℤ) (score : ℚ)
    (h : (on_audio s now audio score).2 = true) :
    s.transcribing = false
    ∧ (on_audio s now audio score).1 = triggeredState s now := by
  unfold on_audio at h ⊢
  split_ifs at h ⊢ with h1 h2 h3 h4 h5
  all_goals try simp_all [triggeredState, WAKE_HYSTERESIS_FRAMES]
  all_goals
    (split_ifs at h ⊢ <;> simp_all [triggeredState, WAKE_HYSTERESIS_FRAMES])

/-- When an idle `on_audio` invocation does not trigger, the flag stays
clear and the buffer is untouched. -/
theorem on_audio_idle_no_start (s : State) (now : ℚ) (audio : List ℤ)
    (score : ℚ) (ht : s.transcribing = false)
    (h : (on_audio s now audio score).2 = false) :
    (on_audio s now audio score).1.transcribing = false
    ∧ (on_audio s now audio score).1.transcription_buffer =
        s.transcription_buffer := by
  unfold on_audio at h ⊢
  split_ifs at h ⊢ with h1 h2 h3 h4 h5
  all_goals try simp_all [WAKE_HYSTERESIS_FRAMES]
  all_goals (split_ifs at h ⊢ <;> simp_all [WAKE_HYSTERESIS_FRAMES])

/-- `SysInv` holds initially. -/
theorem sysInv_init : SysInv initSys := by
  refine ⟨by simp [initSys, initState], by simp [initSys, initState], ?_, ?_, ?_⟩
  · intro h
    rcases h with h | h <;> simp [initSys] at h
  · intro arr h
    simp [initSys] at h
  · intro _
    simp [initSys, initState]

/-- `SysInv` is preserved by every event of every interleaving. -/
theorem sysInv_step (sys : Sys) (e : Ev) (h : SysInv sys) :
    SysInv (sysStep sys e) := by
  obtain ⟨h1, h2, h3, h4, h5⟩ := h
  cases e with
  | audio now block score =>
      by_cases hs : (on_audio sys.st now block score).2 = true
      · obtain ⟨hidle, hpost⟩ := on_audio_start sys.st now block score hs
        refine ⟨?_, ?_, ?_, ?_, ?_⟩ <;>
          simp [sysStep, hs, hpost, triggeredState, hidle, h2]
      · have hs' : (on_audio sys.st now block score).2 = false := by
          simpa using hs
        by_cases ht : sys.st.transcribing = true
        · obtain ⟨ht', hb', _⟩ := on_audio_active sys.st now block score ht
          have hph : sys.phase ≠ WPhase.off := h1.mp ht
          cases hphc : sys.phase with
          | off => exact absurd hphc hph
          | polling =>
              refine ⟨?_, ?_, ?_, ?_, ?_⟩ <;>
                simp_all [sysStep, hs', ht, hphc]
          | broke =>
              refine ⟨?_, ?_, ?_, ?_, ?_⟩ <;>
                simp_all [sysStep, hs', ht, hphc]
          | drained arr =>
              refine ⟨?_, ?_, ?_, ?_, ?_⟩ <;>
                simp_all [sysStep, hs', ht, hphc]
        · have ht0 : sys.st.transcribing = false := by simpa using ht
          obtain ⟨ht', hb'⟩ :=
            on_audio_idle_no_start sys.st now block score ht0 hs'
          have hph : sys.phase = WPhase.off := by
            by_contra hph
            exact ht (h1.mpr hph)
          refine ⟨?_, ?_, ?_, ?_, ?_⟩ <;>
            simp_all [sysStep, hs', ht0, hph]
  | poll now =>
      cases hphc : sys.phase with
      | polling =>
          by_cases hw : watchdog_break sys.st now = true
          · have ht : sys.st.transcribing = true := h1.mpr (by simp [hphc])
            refine ⟨?_, ?_, ?_, ?_, ?_⟩ <;>
              simp_all [sysStep, hphc, hw]
          · have hw' : watchdog_break sys.st now = false := by simpa using hw
            refine ⟨?_, ?_, ?_, ?_, ?_⟩ <;>
              simp_all [sysStep, hphc, hw']
      | off => refine ⟨?_, ?_, ?_, ?_, ?_⟩ <;> simp_all [sysStep, hphc]
      | broke => refine ⟨?_, ?_, ?_, ?_, ?_⟩ <;> simp_all [sysStep, hphc]
      | drained arr =>
          refine ⟨?_, ?_, ?_, ?_, ?_⟩ <;> simp_all [sysStep, hphc]
  | drain =>
      cases hphc : sys.phase with
      | broke =>
          have ht : sys.st.transcribing = true := h1.mpr (by simp [hphc])
          have hb : sys.st.transcription_buffer = sys.sessionLog :=
            h3 (Or.inr hphc)
          refine ⟨?_, ?_, ?_, ?_, ?_⟩ <;> simp_all [sysStep, hphc]
      | off => refine ⟨?_, ?_, ?_, ?_, ?_⟩ <;> simp_all [sysStep, hphc]
      | polling => refine ⟨?_, ?_, ?_, ?_, ?_⟩ <;> simp_all [sysStep, hphc]
      | drained arr =>
          refine ⟨?_, ?_, ?_, ?_, ?_⟩ <;> simp_all [sysStep, hphc]
  | cleanup now =>
      cases hphc : sys.phase with
      | drained arr =>
          have ht : sys.st.transcribing = true := h1.mpr (by simp [hphc])
          refine ⟨?_, ?_, ?_, ?_, ?_⟩ <;> simp_all [sysStep, hphc, ht]
      | off => refine ⟨?_, ?_, ?_, ?_, ?_⟩ <;> simp_all [sysStep, hphc]
      | polling => refine ⟨?_, ?_, ?_, ?_, ?_⟩ <;> simp_all [sysStep, hphc]
      | broke => refine ⟨?_, ?_, ?_, ?_, ?_⟩ <;> simp_all [sysStep, hphc]

/-- `SysInv` holds after folding any event list over any invariant
state. -/
theorem sysInv_foldl (es : List Ev) :
    ∀ sys : Sys, SysInv sys → SysInv (List.foldl sysStep sys es) := by
  induction es with
  | nil => intro sys h; exact h
  | cons e es ih => intro sys h; exact ih (sysStep sys e) (sysInv_step sys e h)

/-- Every reachable system satisfies the invariant. -/
theorem sysInv_runTrace (es : List Ev) : SysInv (runTrace es) :=
  sysInv_foldl es initSys sysInv_init

/-- The worker's break test is exactly the disjunction of its three exit
conditions. -/
theorem watchdog_break_iff (s : State) (now : ℚ) :
    watchdog_break s now = true ↔
      (s.transcribing = false
        ∨ SESSION_MAX_SEC ≤ now - s.transcription_start_ts
        ∨ (0 < s.silence_start_ts
            ∧ SILENCE_TIMEOUT_SEC ≤ now - s.silence_start_ts)) := by
  unfold watchdog_break
  split_ifs with h1 h2 h3 <;> simp_all

/-- For a session with frozen start and silence-run timestamps, the break
test fires exactly from `firstStop` onwards. -/
theorem watchdog_break_iff_le (s : State) (now : ℚ)
    (ht : s.transcribing = true) (hz : 0 ≤ s.silence_start_ts) :
    (watchdog_break s now = true ↔
      firstStop s.transcription_start_ts s.silence_start_ts ≤ now) := by
  rw [watchdog_break_iff]
  unfold firstStop
  by_cases hzp : 0 < s.silence_start_ts
  · rw [if_pos hzp, min_le_iff]
    constructor
    · rintro (habs | h40 | ⟨_, h5s⟩)
      · rw [ht] at habs; cases habs
      · exact Or.inl (by linarith)
      · exact Or.inr (by linarith)
    · rintro (h40 | h5s)
      · exact Or.inr (Or.inl (by linarith))
      · exact Or.inr (Or.inr ⟨hzp, by linarith⟩)
  · rw [if_neg hzp]
    constructor
    · rintro (habs | h40 | ⟨hzp', _⟩)
      · rw [ht] at habs; cases habs
      · linarith
      · exact absurd hzp' hzp
    · intro h40
      exact Or.inr (Or.inl (by linarith))

/-- An idle `on_audio` invocation that passes the size, cooldown and
retrigger gates reduces to the pure hysteresis decision. -/
theorem on_audio_idle_gated (s : State) (now : ℚ) (audio : List ℤ)
    (score : ℚ) (ht : s.transcribing = false)
    (hlen : CHUNK_SIZE ≤ audio.length)
    (hcd : s.wake_cooldown_until ≤ now)
    (hgap : RETRIGGER_GAP_SEC ≤ now - s.last_trigger_ts) :
    on_audio s now audio score =
      (if WAKE_SCORE_THRESHOLD ≤ score then
        (if WAKE_HYSTERESIS_FRAMES ≤ s.consecutive_wake_hits + 1 then
          (triggeredState s now, true)
        else
          ({ s with consecutive_wake_hits := s.consecutive_wake_hits + 1 },
            false))
      else ({ s with consecutive_wake_hits := 0 }, false)) := by
  have hlen' : ¬ audio.length < CHUNK_SIZE := Nat.not_lt.mpr hlen
  have hcd' : ¬ now < s.wake_cooldown_until := not_lt.mpr hcd
  have hgap' : ¬ now - s.last_trigger_ts < RETRIGGER_GAP_SEC :=
    not_lt.mpr hgap
  by_cases hsc : WAKE_SCORE_THRESHOLD ≤ score
  · simp [on_audio, hlen', ht, hcd', hgap', hsc]
  · simp [on_audio, hlen', ht, hcd', hgap', hsc, WAKE_HYSTERESIS_FRAMES]

/-- Claim C1: over every interleaving of audio-callback invocations and
watchdog/finalizer steps, at most one recording session is active at any
time — the ghost count of started-but-unfinalized sessions always equals
the `transcribing` flag and never exceeds one — and while the flag is
set, no `on_audio` invocation can start a session, whatever its block and
wake score. -/
theorem C1_at_most_one_session :
    (∀ es : List Ev,
      (runTrace es).activeCount =
        (if (runTrace es).st.transcribing then 1 else 0)
      ∧ (runTrace es).activeCount ≤ 1)
    ∧ (∀ (s : State) (now : ℚ) (block : List ℤ) (score : ℚ),
        s.transcribing = true → (on_audio s now block score).2 = false) := by
  constructor
  · intro es
    obtain ⟨_, h2, _, _, _⟩ := sysInv_runTrace es
    refine ⟨h2, ?_⟩
    rw [h2]
    split <;> norm_num
  · intro s now block score ht
    exact (on_audio_active s now block score ht).2.2

/-- Witness for C1 at a concrete trace and a concrete active state. -/
theorem C1_at_most_one_session_witness :
    (runTrace [Ev.audio 2 chunk0 1]).activeCount ≤ 1
    ∧ (on_audio activeState 3 chunk0 1).2 = false :=
  ⟨(C1_at_most_one_session.1 [Ev.audio 2 chunk0 1]).2,
    C1_at_most_one_session.2 activeState 3 chunk0 1 rfl⟩

/-- Claim C2: whatever the transcription and post-processing oracles do —
including failing — finalization leaves the buffer empty, the
`transcribing` flag clear, `wake_cooldown_until = now +
POST_SESSION_COOLDOWN_SEC`, and requests a wake-model reset. -/
theorem C2_finalizer_unconditional_reset :
    ∀ (s : State) (now : ℚ)
      (transcriber : List ℤ → Except String String)
      (postprocessor : String → Except String Unit),
      (end_session_and_postprocess s now transcriber
          postprocessor).state.transcription_buffer = []
      ∧ (end_session_and_postprocess s now transcriber
          postprocessor).state.transcribing = false
      ∧ (end_session_and_postprocess s now transcriber
          postprocessor).state.wake_cooldown_until =
            now + POST_SESSION_COOLDOWN_SEC
      ∧ (end_session_and_postprocess s now transcriber
          postprocessor).wakeModelReset = true := by
  intro s now transcriber postprocessor
  exact ⟨rfl, rfl, rfl, rfl⟩

/-- Claim C3: in every interleaving, the live buffer equals exactly the
samples appended since the session started (in arrival order) up to the
drain; the drained snapshot — the array handed to the transcriber —
equals that log; samples arriving after the drain sit apart in the live
buffer and are gone (discarded, not transcribed) once the system is
idle; and the finalizer hands the transcriber exactly its drained
buffer. -/
theorem C3_drain_completeness :
    (∀ es : List Ev,
      (((runTrace es).phase = WPhase.polling
          ∨ (runTrace es).phase = WPhase.broke) →
        (runTrace es).st.transcription_buffer = (runTrace es).sessionLog)
      ∧ (∀ arr, (runTrace es).phase = WPhase.drained arr →
          arr = (runTrace es).sessionLog
          ∧ (runTrace es).st.transcription_buffer = (runTrace es).postLog)
      ∧ ((runTrace es).phase = WPhase.off →
          (runTrace es).st.transcription_buffer = []))
    ∧ (∀ (sys : Sys) (now : ℚ) (arr : List ℤ),
        sys.phase = WPhase.drained arr →
        (sysStep sys (Ev.cleanup now)).st.transcription_buffer = [])
    ∧ (∀ (s : State) (now : ℚ) (tr : List ℤ → Except String String)
        (pp : String → Except String Unit),
        (end_session_and_postprocess s now tr pp).transcribed =
          (if s.transcription_buffer.length = 0 then none
            else some s.transcription_buffer)) := by
  refine ⟨?_, ?_, ?_⟩
  · intro es
    obtain ⟨_, _, h3, h4, h5⟩ := sysInv_runTrace es
    exact ⟨h3, h4, h5⟩
  · intro sys now arr h
    simp [sysStep, h]
  · intro s now tr pp
    rfl

/-- Witness for C3: the empty trace is idle with an empty buffer, and a
cleanup step from a concrete drained system empties the live buffer. -/
theorem C3_drain_completeness_witness :
    (runTrace []).st.transcription_buffer = []
    ∧ (sysStep drainedSys (Ev.cleanup 90)).st.transcription_buffer = []
    ∧ (end_session_and_postprocess activeState 90 okTranscriber
        okPost).transcribed =
      (if activeState.transcription_buffer.length = 0 then none
        else some activeState.transcription_buffer) :=
  ⟨(C3_drain_completeness.1 []).2.2 rfl,
    C3_drain_completeness.2.1 drainedSys 90 [7] rfl,
    C3_drain_completeness.2.2 activeState 90 okTranscriber okPost⟩

/-- Claim C5: a chunk arriving while idle during the post-session
cooldown or within the retrigger gap changes nothing: the state —
including the hysteresis counter — is returned untouched and no session
starts, whatever the score. -/
theorem C5_cooldown_ignores_chunk :
    ∀ (s : State) (now : ℚ) (audio : List ℤ) (score : ℚ),
      s.transcribing = false →
      (now < s.wake_cooldown_until
        ∨ now - s.last_trigger_ts < RETRIGGER_GAP_SEC) →
      on_audio s now audio score = (s, false) := by
  intro s now audio score ht hgate
  unfold on_audio
  split_ifs with h1 h2 h3 h4 h5 <;> first | rfl | simp_all

/-- Witness for C5: a high-scoring chunk during an active cooldown. -/
theorem C5_cooldown_ignores_chunk_witness :
    on_audio cooldownState 5 chunk0 1 = (cooldownState, false) :=
  C5_cooldown_ignores_chunk cooldownState 5 chunk0 1 rfl
    (Or.inl (by decide))

/-- Claim C10: a block with fewer than `CHUNK_SIZE` samples is dropped
before anything happens: the state is returned unchanged — no append, no
silence classification, no scoring, no counter or timestamp update — and
no session starts. -/
theorem C10_short_block_noop :
    ∀ (s : State) (now : ℚ) (audio : List ℤ) (score : ℚ),
      audio.length < CHUNK_SIZE →
      on_audio s now audio score = (s, false) := by
  intro s now audio score h
  exact on_audio_short s now audio score h

/-- Witness for C10: the empty block, during an active session. -/
theorem C10_short_block_noop_witness :
    on_audio activeState 7 [] 1 = (activeState, false) :=
  C10_short_block_noop activeState 7 [] 1 (by decide)

/-- Claim C4: from idle with a cleared hysteresis counter and both
cooldowns expired at every arrival, a run of `WAKE_HYSTERESIS_FRAMES - 1
= 2` above-threshold chunks followed by one below-threshold chunk never
starts a session (and leaves the detector idle with a cleared counter),
while a run of `WAKE_HYSTERESIS_FRAMES = 3` above-threshold chunks starts
one exactly at the third; in particular the score sequence
`[0.2, 0.6, 0.7, 0.8, 0.3]` from the fresh initial state starts the
session exactly at the 4th chunk and not at any other. -/
theorem C4_hysteresis :
    (∀ (s : State) (b : List ℤ) (t1 t2 t3 q1 q2 q3 : ℚ),
      s.transcribing = false → s.consecutive_wake_hits = 0 →
      CHUNK_SIZE ≤ b.length →
      s.wake_cooldown_until ≤ t1 →
      RETRIGGER_GAP_SEC ≤ t1 - s.last_trigger_ts →
      s.wake_cooldown_until ≤ t2 →
      RETRIGGER_GAP_SEC ≤ t2 - s.last_trigger_ts →
      s.wake_cooldown_until ≤ t3 →
      RETRIGGER_GAP_SEC ≤ t3 - s.last_trigger_ts →
      WAKE_SCORE_THRESHOLD ≤ q1 → WAKE_SCORE_THRESHOLD ≤ q2 →
      q3 < WAKE_SCORE_THRESHOLD →
      (run_chunks b s [(t1, q1), (t2, q2), (t3, q3)]).2 =
          [false, false, false]
        ∧ (run_chunks b s [(t1, q1), (t2, q2), (t3, q3)]).1.transcribing
            = false
        ∧ (run_chunks b s
            [(t1, q1), (t2, q2), (t3, q3)]).1.consecutive_wake_hits = 0)
    ∧ (∀ (s : State) (b : List ℤ) (t1 t2 t3 q1 q2 q3 : ℚ),
      s.transcribing = false → s.consecutive_wake_hits = 0 →
      CHUNK_SIZE ≤ b.length →
      s.wake_cooldown_until ≤ t1 →
      RETRIGGER_GAP_SEC ≤ t1 - s.last_trigger_ts →
      s.wake_cooldown_until ≤ t2 →
      RETRIGGER_GAP_SEC ≤ t2 - s.last_trigger_ts →
      s.wake_cooldown_until ≤ t3 →
      RETRIGGER_GAP_SEC ≤ t3 - s.last_trigger_ts →
      WAKE_SCORE_THRESHOLD ≤ q1 → WAKE_SCORE_THRESHOLD ≤ q2 →
      WAKE_SCORE_THRESHOLD ≤ q3 →
      (run_chunks b s [(t1, q1), (t2, q2), (t3, q3)]).2 =
        [false, false, true])
    ∧ (run_chunks chunk0 initState
        [(2, 1/5), (3, 3/5), (4, 7/10), (5, 4/5), (6, 3/10)]).2 =
          [false, false, false, true, false] := by
  refine ⟨?_, ?_, ?_⟩
  · intro s b t1 t2 t3 q1 q2 q3 ht hh hlen hcd1 hgap1 hcd2 hgap2 hcd3
      hgap3 hq1 hq2 hq3
    have e1 : on_audio s t1 b q1 =
        ({ s with consecutive_wake_hits := 1 }, false) := by
      rw [on_audio_idle_gated s t1 b q1 ht hlen hcd1 hgap1, if_pos hq1,
        if_neg (by rw [hh]; norm_num [WAKE_HYSTERESIS_FRAMES])]
      rw [hh]
    have e2 : on_audio ({ s with consecutive_wake_hits := 1 }) t2 b q2 =
        ({ s with consecutive_wake_hits := 2 }, false) := by
      rw [on_audio_idle_gated ({ s with consecutive_wake_hits := 1 })
          t2 b q2 ht hlen hcd2 hgap2, if_pos hq2,
        if_neg (by norm_num [WAKE_HYSTERESIS_FRAMES])]
    have e3 : on_audio ({ s with consecutive_wake_hits := 2 }) t3 b q3 =
        ({ s with consecutive_wake_hits := 0 }, false) := by
      rw [on_audio_idle_gated ({ s with consecutive_wake_hits := 2 })
          t3 b q3 ht hlen hcd3 hgap3, if_neg (not_le.mpr hq3)]
    simp only [run_chunks, e1, e2, e3]
    simp [ht]
  · intro s b t1 t2 t3 q1 q2 q3 ht hh hlen hcd1 hgap1 hcd2 hgap2 hcd3
      hgap3 hq1 hq2 hq3
    have e1 : on_audio s t1 b q1 =
        ({ s with consecutive_wake_hits := 1 }, false) := by
      rw [on_audio_idle_gated s t1 b q1 ht hlen hcd1 hgap1, if_pos hq1,
        if_neg (by rw [hh]; norm_num [WAKE_HYSTERESIS_FRAMES])]
      rw [hh]
    have e2 : on_audio ({ s with consecutive_wake_hits := 1 }) t2 b q2 =
        ({ s with consecutive_wake_hits := 2 }, false) := by
      rw [on_audio_idle_gated ({ s with consecutive_wake_hits := 1 })
          t2 b q2 ht hlen hcd2 hgap2, if_pos hq2,
        if_neg (by norm_num [WAKE_HYSTERESIS_FRAMES])]
    have e3 : on_audio ({ s with consecutive_wake_hits := 2 }) t3 b q3 =
        (triggeredState ({ s with consecutive_wake_hits := 2 }) t3,
          true) := by
      rw [on_audio_idle_gated ({ s with consecutive_wake_hits := 2 })
          t3 b q3 ht hlen hcd3 hgap3, if_pos hq3,
        if_pos (by norm_num [WAKE_HYSTERESIS_FRAMES])]
    simp only [run_chunks, e1, e2, e3]
  · have hlen : CHUNK_SIZE ≤ chunk0.length := by simp [chunk0]
    have e1 : on_audio initState 2 chunk0 (1/5) =
        ({ initState with consecutive_wake_hits := 0 }, false) := by
      rw [on_audio_idle_gated initState 2 chunk0 (1/5) rfl hlen
          (by norm_num [initState])
          (by norm_num [initState, RETRIGGER_GAP_SEC]),
        if_neg (by norm_num [WAKE_SCORE_THRESHOLD])]
    have e2 : on_audio ({ initState with consecutive_wake_hits := 0 })
        3 chunk0 (3/5) =
        ({ initState with consecutive_wake_hits := 1 }, false) := by
      rw [on_audio_idle_gated ({ initState with
            consecutive_wake_hits := 0 }) 3 chunk0 (3/5) rfl hlen
          (by norm_num [initState])
          (by norm_num [initState, RETRIGGER_GAP_SEC]),
        if_pos (by norm_num [WAKE_SCORE_THRESHOLD]),
        if_neg (by norm_num [WAKE_HYSTERESIS_FRAMES])]
    have e3 : on_audio ({ initState with consecutive_wake_hits := 1 })
        4 chunk0 (7/10) =
        ({ initState with consecutive_wake_hits := 2 }, false) := by
      rw [on_audio_idle_gated ({ initState with
            consecutive_wake_hits := 1 }) 4 chunk0 (7/10) rfl hlen
          (by norm_num [initState])
          (by norm_num [initState, RETRIGGER_GAP_SEC]),
        if_pos (by norm_num [WAKE_SCORE_THRESHOLD]),
        if_neg (by norm_num [WAKE_HYSTERESIS_FRAMES])]
    have e4 : on_audio ({ initState with consecutive_wake_hits := 2 })
        5 chunk0 (4/5) =
        (triggeredState ({ initState with consecutive_wake_hits := 2 })
          5, true) := by
      rw [on_audio_idle_gated ({ initState with
            consecutive_wake_hits := 2 }) 5 chunk0 (4/5) rfl hlen
          (by norm_num [initState])
          (by norm_num [initState, RETRIGGER_GAP_SEC]),
        if_pos (by norm_num [WAKE_SCORE_THRESHOLD]),
        if_pos (by norm_num [WAKE_HYSTERESIS_FRAMES])]
    have e5 := (on_audio_active
      (triggeredState ({ initState with consecutive_wake_hits := 2 }) 5)
      6 chunk0 (3/10) rfl).2.2
    simp only [run_chunks, e1, e2, e3, e4, e5]

/-- Witness for C4: both general parts instantiated at concrete scores
and times from the fresh initial state. -/
theorem C4_hysteresis_witness :
    (run_chunks chunk0 initState [(2, 3/5), (3, 7/10), (4, 3/10)]).2 =
        [false, false, false]
    ∧ (run_chunks chunk0 initState [(2, 3/5), (3, 7/10), (4, 4/5)]).2 =
        [false, false, true] :=
  ⟨(C4_hysteresis.1 initState chunk0 2 3 4 (3/5) (7/10) (3/10) rfl rfl
      (by simp [chunk0]) (by norm_num [initState])
      (by norm_num [initState, RETRIGGER_GAP_SEC])
      (by norm_num [initState])
      (by norm_num [initState, RETRIGGER_GAP_SEC])
      (by norm_num [initState])
      (by norm_num [initState, RETRIGGER_GAP_SEC])
      (by norm_num [WAKE_SCORE_THRESHOLD])
      (by norm_num [WAKE_SCORE_THRESHOLD])
      (by norm_num [WAKE_SCORE_THRESHOLD])).1,
    C4_hysteresis.2.1 initState chunk0 2 3 4 (3/5) (7/10) (4/5) rfl rfl
      (by simp [chunk0]) (by norm_num [initState])
      (by norm_num [initState, RETRIGGER_GAP_SEC])
      (by norm_num [initState])
      (by norm_num [initState, RETRIGGER_GAP_SEC])
      (by norm_num [initState])
      (by norm_num [initState, RETRIGGER_GAP_SEC])
      (by norm_num [WAKE_SCORE_THRESHOLD])
      (by norm_num [WAKE_SCORE_THRESHOLD])
      (by norm_num [WAKE_SCORE_THRESHOLD])⟩

/-- Claim C6: the worker's break test fires exactly on the three exit
conditions (including the flag going false externally); a breaking poll
moves the watchdog out of its loop; and for a session whose start and
silence-run timestamps stay frozen, polling every 1/20 s from `t0` exits
at the first poll at or after `firstStop` — no earlier poll breaks, the
exit poll breaks, and it lies strictly within one poll interval of
`firstStop`. -/
theorem C6_watchdog_timing :
    (∀ (s : State) (now : ℚ),
      watchdog_break s now = true ↔
        (s.transcribing = false
          ∨ SESSION_MAX_SEC ≤ now - s.transcription_start_ts
          ∨ (0 < s.silence_start_ts
              ∧ SILENCE_TIMEOUT_SEC ≤ now - s.silence_start_ts)))
    ∧ (∀ (sys : Sys) (now : ℚ), sys.phase = WPhase.polling →
        (sysStep sys (Ev.poll now)).phase =
          (if watchdog_break sys.st now then WPhase.broke
            else WPhase.polling))
    ∧ (∀ (s : State) (t0 : ℚ), s.transcribing = true →
        0 ≤ s.silence_start_ts →
        t0 ≤ firstStop s.transcription_start_ts s.silence_start_ts →
        (∀ j : ℕ, j < Nat.ceil ((firstStop s.transcription_start_ts
            s.silence_start_ts - t0) * 20) →
          watchdog_break s (t0 + (j : ℚ) / 20) = false)
        ∧ watchdog_break s (t0 + ((Nat.ceil ((firstStop
            s.transcription_start_ts s.silence_start_ts - t0) * 20) : ℕ)
            : ℚ) / 20) = true
        ∧ t0 + ((Nat.ceil ((firstStop s.transcription_start_ts
            s.silence_start_ts - t0) * 20) : ℕ) : ℚ) / 20 <
            firstStop s.transcription_start_ts s.silence_start_ts
              + 1 / 20) := by
  refine ⟨watchdog_break_iff, ?_, ?_⟩
  · intro sys now hp
    simp only [sysStep, hp]
    split <;> simp [hp]
  · intro s t0 ht hz hT
    have hx : 0 ≤ (firstStop s.transcription_start_ts
        s.silence_start_ts - t0) * 20 := by
      have h0 : 0 ≤ firstStop s.transcription_start_ts
          s.silence_start_ts - t0 := by linarith
      exact mul_nonneg h0 (by norm_num)
    refine ⟨?_, ?_, ?_⟩
    · intro j hj
      have hjlt : (j : ℚ) < (firstStop s.transcription_start_ts
          s.silence_start_ts - t0) * 20 := by
        exact_mod_cast Nat.lt_ceil.mp hj
      have hnow : t0 + (j : ℚ) / 20 < firstStop s.transcription_start_ts
          s.silence_start_ts := by linarith
      have hiff := watchdog_break_iff_le s (t0 + (j : ℚ) / 20) ht hz
      cases hb : watchdog_break s (t0 + (j : ℚ) / 20) with
      | false => rfl
      | true => exact absurd (hiff.mp hb) (not_le.mpr hnow)
    · have hk := Nat.le_ceil ((firstStop s.transcription_start_ts
        s.silence_start_ts - t0) * 20)
      exact (watchdog_break_iff_le s _ ht hz).mpr (by linarith)
    · have hk2 := Nat.ceil_lt_add_one hx
      linarith

/-- Witness for C6 at a session that started at time 0 with no silence
run: the watchdog, polling from 0, exits by `firstStop 0 0 + 1/20`. -/
theorem C6_watchdog_timing_witness :
    watchdog_break activeState
      (0 + ((Nat.ceil ((firstStop activeState.transcription_start_ts
        activeState.silence_start_ts - 0) * 20) : ℕ) : ℚ) / 20) = true
    ∧ 0 + ((Nat.ceil ((firstStop activeState.transcription_start_ts
        activeState.silence_start_ts - 0) * 20) : ℕ) : ℚ) / 20 <
        firstStop activeState.transcription_start_ts
          activeState.silence_start_ts + 1 / 20 := by
  have h := C6_watchdog_timing.2.2 activeState 0 rfl
    (by norm_num [activeState, initState])
    (by norm_num [activeState, initState, firstStop, SESSION_MAX_SEC])
  exact ⟨h.2.1, h.2.2⟩

/-- `loudChunk` is classified non-silent: its RMS is 1000 ≥ 500. -/
theorem is_silence_loudChunk : is_silence loudChunk = false := by
  simp only [is_silence, loudChunk, CHUNK_SIZE, RMS_SILENCE_THRESHOLD,
    List.map_replicate, List.sum_replicate, List.length_replicate,
    nsmul_eq_mul]
  norm_num

/-- Claim C7: while a session is active, a silent chunk stamps
`silence_start_ts = now` only when it was unset and otherwise preserves
it, a non-silent chunk clears it to 0; consequently after a non-silent
chunk the watchdog can only break on the hard cap (or an external flag
clear, excluded since the flag stays set), never on the silence
timeout. -/
theorem C7_silence_tracking :
    (∀ (s : State) (now : ℚ) (audio : List ℤ) (score : ℚ),
      s.transcribing = true → CHUNK_SIZE ≤ audio.length →
      (on_audio s now audio score).1.silence_start_ts =
        (if is_silence audio then
          (if s.silence_start_ts = 0 then now else s.silence_start_ts)
        else 0))
    ∧ (∀ (s : State) (now : ℚ) (audio : List ℤ) (score t : ℚ),
      s.transcribing = true → CHUNK_SIZE ≤ audio.length →
      is_silence audio = false →
      watchdog_break (on_audio s now audio score).1 t = true →
      SESSION_MAX_SEC ≤
        t - (on_audio s now audio score).1.transcription_start_ts) := by
  constructor
  · intro s now audio score ht hlen
    rw [on_audio_active_full s now audio score ht hlen]
  · intro s now audio score t ht hlen hsil hb
    rw [on_audio_active_full s now audio score ht hlen] at hb ⊢
    rw [watchdog_break_iff] at hb
    rcases hb with h | h | ⟨hzp, h5⟩
    · simp [ht] at h
    · exact h
    · simp [hsil] at hzp

/-- Witness for C7 at an active session receiving a loud chunk at `t = 7`
and a watchdog check at `t = 50`. -/
theorem C7_silence_tracking_witness :
    (on_audio activeState 7 loudChunk 0).1.silence_start_ts =
      (if is_silence loudChunk then
        (if activeState.silence_start_ts = 0 then 7
          else activeState.silence_start_ts) else 0)
    ∧ SESSION_MAX_SEC ≤
        50 - (on_audio activeState 7 loudChunk 0).1.transcription_start_ts := by
  constructor
  · exact C7_silence_tracking.1 activeState 7 loudChunk 0 rfl
      (by simp [loudChunk])
  · refine C7_silence_tracking.2 activeState 7 loudChunk 0 50 rfl
      (by simp [loudChunk]) is_silence_loudChunk ?_
    rw [on_audio_active_full activeState 7 loudChunk 0 rfl
      (by simp [loudChunk])]
    exact (watchdog_break_iff _ 50).mpr
      (Or.inr (Or.inl (by norm_num [activeState, initState,
        SESSION_MAX_SEC])))

/-- Counterexample to claim C8: from an idle state (flag false), the
watchdog's break test does fire, but the finalizer that the worker then
runs unconditionally is not a no-op — it advances `wake_cooldown_until`
(here from 0 to 101.5) and requests a wake-model reset. -/
theorem C8_idle_end_counterexample :
    initState.transcribing = false
    ∧ watchdog_break initState 100 = true
    ∧ (end_session_and_postprocess initState 100 okTranscriber
        okPost).state.wake_cooldown_until ≠ initState.wake_cooldown_until
    ∧ (end_session_and_postprocess initState 100 okTranscriber
        okPost).wakeModelReset = true := by
  refine ⟨rfl, rfl, ?_, rfl⟩
  norm_num [end_session_and_postprocess, initState,
    POST_SESSION_COOLDOWN_SEC]

/-- Claim C8 (amended): when the watchdog observes the flag already
false it exits its loop at once and still runs the finalizer, which —
without raising any error (the embedded finalizer is total) — clears the
buffer, leaves the flag false, advances `wake_cooldown_until` to
`now + POST_SESSION_COOLDOWN_SEC`, and resets the wake scorer. -/
theorem C8_idle_end_runs_finalizer (s : State) (now : ℚ)
    (tr : List ℤ → Except String String)
    (pp : String → Except String Unit)
    (h : s.transcribing = false) :
    watchdog_break s now = true
    ∧ (end_session_and_postprocess s now tr pp).state.transcribing = false
    ∧ (end_session_and_postprocess s now
        tr pp).state.transcription_buffer = []
    ∧ (end_session_and_postprocess s now tr pp).state.wake_cooldown_until
        = now + POST_SESSION_COOLDOWN_SEC
    ∧ (end_session_and_postprocess s now tr pp).wakeModelReset = true := by
  refine ⟨?_, rfl, rfl, rfl, rfl⟩
  simp [watchdog_break, h]

/-- Witness for the amended C8 at the idle initial state. -/
theorem C8_idle_end_runs_finalizer_witness :
    watchdog_break initState 50 = true
    ∧ (end_session_and_postprocess initState 50 okTranscriber
        okPost).state.wake_cooldown_until =
          50 + POST_SESSION_COOLDOWN_SEC :=
  ⟨(C8_idle_end_runs_finalizer initState 50 okTranscriber okPost rfl).1,
    (C8_idle_end_runs_finalizer initState 50 okTranscriber
      okPost rfl).2.2.2.1⟩

/-- Counterexample to claim C9: it is false that every access to the six
shared fields by the ingest callback and the watchdog/finalizer thread
holds `state_lock` — the cooldown gate reads `wake_cooldown_until` (line
283) and the trigger path reads and writes `last_trigger_ts` (lines 285,
300) outside any `with state_lock:` block. -/
theorem C9_lock_discipline_counterexample :
    ¬ (∀ a ∈ all_shared_accesses,
        a.field ∈ claimedSharedFields → a.locked = true) := by
  decide

/-- Claim C9 (amended): every access to `transcribing`,
`transcription_buffer`, `transcription_start_ts` and `silence_start_ts`
holds the lock, but the ingest callback reads `wake_cooldown_until` and
reads and writes `last_trigger_ts` with no lock held. -/
theorem C9_lock_discipline_amended :
    (∀ a ∈ all_shared_accesses,
      (a.field = Field.transcribing
        ∨ a.field = Field.transcription_buffer
        ∨ a.field = Field.transcription_start_ts
        ∨ a.field = Field.silence_start_ts) → a.locked = true)
    ∧ Access.mk Field.wake_cooldown_until Mode.read false ∈
        on_audio_trigger_accesses
    ∧ Access.mk Field.last_trigger_ts Mode.read false ∈
        on_audio_trigger_accesses
    ∧ Access.mk Field.last_trigger_ts Mode.write false ∈
        on_audio_trigger_accesses := by
  refine ⟨?_, ?_, ?_, ?_⟩ <;> decide

/-- Witness for the amended C9 at a concrete locked access. -/
theorem C9_lock_discipline_amended_witness :
    (Access.mk Field.transcribing Mode.read true).locked = true :=
  C9_lock_discipline_amended.1
    (Access.mk Field.transcribing Mode.read true) (by decide) (Or.inl rfl)

end VillageElder
